import Mathlib

/-!
Verification of `marimo/_messaging/streams.py`: a shallow embedding of the
console-redirection pipeline (thread-safe stream, stdout/stderr sinks, stdin
source, fd watcher, redirect scope) together with theorems settling the
frozen claims about it.

Python strings are modelled as `List Char` (Python slicing `s[:n]` is
`List.take n`, `len` is `List.length`, `+` is `++`, `str.split` on a
one-character separator is `List.splitOn`).  Side effects on the shared
console-message buffer and its condition variable are modelled as explicit
action traces, so that lock-discipline properties can be stated about them.
-/

namespace Streams

/-- A Python string, modelled as its sequence of code points. -/
abbrev Str := List Char

/-- A Python value passed where a `str` is expected: either an actual `str`
or a value of some other type (carrying its type name, used in the
`TypeError` message). -/
inductive PyVal where
  | str (s : Str)
  | nonStr (typeName : Str)
deriving DecidableEq, Repr

/-- Python exceptions that the embedded code can raise or catch. -/
inductive PyExn where
  | typeError (msg : Str)
  | assertionError
  | osError
  | unsupportedOperation (msg : Str)
  | otherError (tag : Str)
deriving DecidableEq, Repr

/-- Modelled from the spec: `CellChannel` (from
`marimo._messaging.cell_output`, not under src/) — the direction tag of a
console message, one of stdout, stderr, stdin-prompt. -/
inductive CellChannel where
  | STDOUT
  | STDERR
  | STDIN
deriving DecidableEq, Repr

/-- Modelled from the spec: `ConsoleMsg` (from
`marimo._messaging.console_output_worker`, not under src/) — the immutable
framed record {direction, unit-id, payload, content-kind} created by a
sink/source on write/read. -/
structure ConsoleMsg where
  stream : CellChannel
  cell_id : Str
  data : Str
  mimetype : Str
deriving DecidableEq, Repr

/-- Modelled from the spec: the `runtime` section of the marimo
configuration, holding the two integer settings `output_max_bytes` and
`std_stream_max_bytes` (the configuration types are not under src/). -/
structure RuntimeSection where
  output_max_bytes : Nat
  std_stream_max_bytes : Nat
deriving DecidableEq, Repr

/-- Modelled from the spec: the marimo configuration mapping, of which the
embedded code reads only `["runtime"]`. -/
structure MarimoConfig where
  runtime : RuntimeSection
deriving DecidableEq, Repr

/-- Modelled from the spec: the process-wide runtime context object; the
embedded code reads only its `marimo_config`. -/
structure RuntimeContext where
  marimo_config : MarimoConfig
deriving DecidableEq, Repr

/-- Modelled from the spec: `ContextNotInitializedError`, raised by
`get_context` when the runtime context is not initialized. -/
inductive ContextError where
  | contextNotInitialized
deriving DecidableEq, Repr

/-- Modelled from the spec: `get_context` (from `marimo._runtime.context`,
not under src/) — returns the process-wide runtime context, raising
`ContextNotInitializedError` when it is not initialized.  The ambient
context state is passed explicitly as an `Option`. -/
def get_context (ctx : Option RuntimeContext) : Except ContextError RuntimeContext :=
  match ctx with
  | some c => Except.ok c
  | none => Except.error ContextError.contextNotInitialized

/-- Embeds `output_max_bytes` (streams.py lines 58-64): returns the
configured value, falling back to 5,000,000 when the context is not
initialized; the `try/except ContextNotInitializedError` is the `match`. -/
def output_max_bytes (ctx : Option RuntimeContext) : Nat :=
  match get_context ctx with
  | Except.ok c => c.marimo_config.runtime.output_max_bytes
  | Except.error ContextError.contextNotInitialized => 5000000

/-- Embeds `std_stream_max_bytes` (streams.py lines 67-73): returns the
configured value, falling back to 1,000,000 when the context is not
initialized. -/
def std_stream_max_bytes (ctx : Option RuntimeContext) : Nat :=
  match get_context ctx with
  | Except.ok c => c.marimo_config.runtime.std_stream_max_bytes
  | Except.error ContextError.contextNotInitialized => 1000000

/-- The truncation marker `" ... "` appended to truncated payloads. -/
def truncationMarker : Str := " ... ".toList

/-- The one-line warning emitted when a console payload is truncated. -/
def truncationWarning : Str :=
  "Warning: marimo truncated a very large console output.\n".toList

/-- Model of CPython's `sys.getsizeof` on a compact ASCII `str`: object
header overhead of 49 bytes plus one byte per code point.  `sys.getsizeof`
is an interpreter builtin, external to the repository; the theorems about
the sinks are stated for an arbitrary size estimate and this concrete model
is used for witnesses and counterexamples. -/
def getsizeofASCII (s : Str) : Nat := 49 + s.length

/-! ### Action traces on the console-message buffer

A sink/source operation touches the shared buffer and its condition
variable through a sequence of primitive actions; recording them lets the
lock-discipline claims be stated as predicates on the trace. -/

/-- A primitive action on the console-message buffer, its condition
variable, or the real `sys.stderr` side channel. -/
inductive BufAction where
  | acquireCv
  | releaseCv
  | appendMsg (m : Option ConsoleMsg)
  | notifyCv
  | sysStderrWrite (s : Str)
deriving DecidableEq, Repr

/-- Walks a trace tracking whether the condition lock is held and checks
that every buffer append happens while it is held. -/
def appendsUnderLockAux : Bool → List BufAction → Bool
  | _, [] => true
  | _, BufAction.acquireCv :: rest => appendsUnderLockAux true rest
  | _, BufAction.releaseCv :: rest => appendsUnderLockAux false rest
  | held, BufAction.appendMsg _ :: rest => held && appendsUnderLockAux held rest
  | held, BufAction.notifyCv :: rest => appendsUnderLockAux held rest
  | held, BufAction.sysStderrWrite _ :: rest => appendsUnderLockAux held rest

/-- Every buffer append in the trace happens while the condition lock is
held (the trace starts with the lock not held). -/
def appendsUnderLock (t : List BufAction) : Bool := appendsUnderLockAux false t

/-- Walks a trace tracking whether the condition lock is held and checks
that every condition notification happens while it is held. -/
def notifiesUnderLockAux : Bool → List BufAction → Bool
  | _, [] => true
  | _, BufAction.acquireCv :: rest => notifiesUnderLockAux true rest
  | _, BufAction.releaseCv :: rest => notifiesUnderLockAux false rest
  | held, BufAction.appendMsg _ :: rest => notifiesUnderLockAux held rest
  | held, BufAction.notifyCv :: rest => held && notifiesUnderLockAux held rest
  | held, BufAction.sysStderrWrite _ :: rest => notifiesUnderLockAux held rest

/-- Every condition notification in the trace happens while the condition
lock is held. -/
def notifiesUnderLock (t : List BufAction) : Bool := notifiesUnderLockAux false t

/-- Both buffer mutations and notifications happen under the lock. -/
def bufOpsUnderLock (t : List BufAction) : Bool :=
  appendsUnderLock t && notifiesUnderLock t

/-- The console messages appended to the buffer by a trace, in order
(sentinel `None` entries excluded). -/
def emittedMsgs (t : List BufAction) : List ConsoleMsg :=
  t.filterMap fun a =>
    match a with
    | BufAction.appendMsg (some m) => some m
    | _ => none

/-- The warnings written to the real `sys.stderr` side channel by a trace,
in order. -/
def sideChannelWrites (t : List BufAction) : List Str :=
  t.filterMap fun a =>
    match a with
    | BufAction.sysStderrWrite s => some s
    | _ => none

/-! ### The stdout and stderr sinks -/

/-- Embeds `ThreadSafeStdout._write_with_mimetype` (streams.py lines
239-263).  In order: the `assert self._stream.cell_id is not None`; the
`isinstance(data, str)` check raising `TypeError`; the size check against
`std_stream_max_bytes()` using `sys.getsizeof` (the `sizeof` parameter),
on overflow writing the warning to `sys.stderr` and truncating to
`data[:max_bytes] + " ... "`; the append of the `ConsoleMsg` to the buffer
OUTSIDE the condition lock; the notify inside `with console_msg_cv`; and
`return len(data)`.  Returns the call result paired with the buffer-action
trace. -/
def ThreadSafeStdout_write_with_mimetype (sizeof : Str → Nat)
    (ctx : Option RuntimeContext) (cell_id : Option Str) (data : PyVal)
    (mimetype : Str) : Except PyExn Nat × List BufAction :=
  match cell_id with
  | none => (Except.error PyExn.assertionError, [])
  | some cid =>
    match data with
    | PyVal.nonStr tn =>
      (Except.error (PyExn.typeError
        ("write() argument must be a str, not ".toList ++ tn)), [])
    | PyVal.str s =>
      let max_bytes := std_stream_max_bytes ctx
      let warnActs : List BufAction :=
        if sizeof s > max_bytes then [BufAction.sysStderrWrite truncationWarning]
        else []
      let s2 : Str :=
        if sizeof s > max_bytes then s.take max_bytes ++ truncationMarker
        else s
      (Except.ok s2.length,
        warnActs ++
          [BufAction.appendMsg (some
            { stream := CellChannel.STDOUT, cell_id := cid, data := s2,
              mimetype := mimetype }),
           BufAction.acquireCv, BufAction.notifyCv, BufAction.releaseCv])

/-- Embeds `ThreadSafeStderr._write_with_mimetype` (streams.py lines
305-331).  Same checks as the stdout sink, but on overflow the warning is
prepended to the truncated payload as a single combined message, and both
the buffer append and the notify happen inside `with console_msg_cv`. -/
def ThreadSafeStderr_write_with_mimetype (sizeof : Str → Nat)
    (ctx : Option RuntimeContext) (cell_id : Option Str) (data : PyVal)
    (mimetype : Str) : Except PyExn Nat × List BufAction :=
  match cell_id with
  | none => (Except.error PyExn.assertionError, [])
  | some cid =>
    match data with
    | PyVal.nonStr tn =>
      (Except.error (PyExn.typeError
        ("write() argument must be a str, not ".toList ++ tn)), [])
    | PyVal.str s =>
      let max_bytes := std_stream_max_bytes ctx
      let s2 : Str :=
        if sizeof s > max_bytes then
          truncationWarning ++ s.take max_bytes ++ truncationMarker
        else s
      (Except.ok s2.length,
        [BufAction.acquireCv,
         BufAction.appendMsg (some
           { stream := CellChannel.STDERR, cell_id := cid, data := s2,
             mimetype := mimetype }),
         BufAction.notifyCv, BufAction.releaseCv])

/-- Embeds `ThreadSafeStream.stop` (streams.py lines 131-139): when
console redirection is enabled, appends the `None` sentinel to the buffer
OUTSIDE the condition lock and notifies inside `with console_msg_cv`;
otherwise does nothing. -/
def ThreadSafeStream_stop (redirect_console : Bool) : List BufAction :=
  if redirect_console then
    [BufAction.appendMsg none,
     BufAction.acquireCv, BufAction.notifyCv, BufAction.releaseCv]
  else []

/-! ### The stdin source -/

/-- Outcome of the blocking `input_queue.get()` pull: either the next reply
together with the remaining queue, or an indefinite block when the queue is
empty (the real call has no timeout). -/
inductive ReadOutcome where
  | value (reply : Str) (restQueue : List Str)
  | blocked
deriving DecidableEq, Repr

/-- Embeds `ThreadSafeStdin._readline_with_prompt` (streams.py lines
358-386).  In order: the `assert self._stream.cell_id is not None`; the
`isinstance(prompt, str)` check raising `TypeError`; the same truncation
policy as the stderr sink applied to the prompt; the append of a STDIN
`ConsoleMsg` and the notify, both inside `with console_msg_cv`; then the
blocking `input_queue.get()`, whose reply is returned verbatim. -/
def ThreadSafeStdin_readline_with_prompt (sizeof : Str → Nat)
    (ctx : Option RuntimeContext) (cell_id : Option Str)
    (input_queue : List Str) (prompt : PyVal) :
    Except PyExn ReadOutcome × List BufAction :=
  match cell_id with
  | none => (Except.error PyExn.assertionError, [])
  | some cid =>
    match prompt with
    | PyVal.nonStr tn =>
      (Except.error (PyExn.typeError
        ("prompt must be a str, not ".toList ++ tn)), [])
    | PyVal.str p =>
      let max_bytes := std_stream_max_bytes ctx
      let p2 : Str :=
        if sizeof p > max_bytes then
          truncationWarning ++ p.take max_bytes ++ truncationMarker
        else p
      let trace : List BufAction :=
        [BufAction.acquireCv,
         BufAction.appendMsg (some
           { stream := CellChannel.STDIN, cell_id := cid, data := p2,
             mimetype := "text/plain".toList }),
         BufAction.notifyCv, BufAction.releaseCv]
      match input_queue with
      | [] => (Except.ok ReadOutcome.blocked, trace)
      | r :: rest => (Except.ok (ReadOutcome.value r rest), trace)

/-- Embeds `ThreadSafeStdin.readline` (streams.py lines 388-392): the size
argument is discarded and the call is `_readline_with_prompt(prompt="")`. -/
def ThreadSafeStdin_readline (sizeof : Str → Nat) (ctx : Option RuntimeContext)
    (cell_id : Option Str) (input_queue : List Str) :
    Except PyExn ReadOutcome × List BufAction :=
  ThreadSafeStdin_readline_with_prompt sizeof ctx cell_id input_queue
    (PyVal.str [])

/-- Outcome of `readlines`: the reply split on newline boundaries, or an
indefinite block. -/
inductive ReadLinesOutcome where
  | value (lines : List Str) (restQueue : List Str)
  | blocked
deriving DecidableEq, Repr

/-- Embeds `ThreadSafeStdin.readlines` (streams.py lines 394-400): the hint
argument is discarded and the call is
`_readline_with_prompt(prompt="").split("\n")`. -/
def ThreadSafeStdin_readlines (sizeof : Str → Nat) (ctx : Option RuntimeContext)
    (cell_id : Option Str) (input_queue : List Str) :
    Except PyExn ReadLinesOutcome × List BufAction :=
  match ThreadSafeStdin_readline_with_prompt sizeof ctx cell_id input_queue
      (PyVal.str []) with
  | (Except.error e, t) => (Except.error e, t)
  | (Except.ok ReadOutcome.blocked, t) => (Except.ok ReadLinesOutcome.blocked, t)
  | (Except.ok (ReadOutcome.value r rest), t) =>
    (Except.ok (ReadLinesOutcome.value (r.splitOn '\n') rest), t)

/-! ### The thread-safe stream's outbound write -/

/-- The behavior of one call to `pipe.send`: success, an `OSError`
(transport-level failure such as a broken pipe), or some other exception. -/
inductive SendResult where
  | ok
  | osError
  | otherExn (e : PyExn)
deriving DecidableEq, Repr

/-- A primitive action on the stream lock, the pipe, or the logger. -/
inductive StreamAct where
  | lockAcquire
  | lockRelease
  | pipeSend (op : Str)
  | logDebug
deriving DecidableEq, Repr

/-- Embeds `ThreadSafeStream.write` (streams.py lines 122-129): inside
`with self.stream_lock`, calls `pipe.send((op, data))`; an `OSError` is
logged at debug level and swallowed; the `with` releases the lock even when
an exception propagates. -/
def ThreadSafeStream_write (sendResult : SendResult) (op : Str) :
    Except PyExn Unit × List StreamAct :=
  match sendResult with
  | SendResult.ok =>
    (Except.ok (), [StreamAct.lockAcquire, StreamAct.pipeSend op,
      StreamAct.lockRelease])
  | SendResult.osError =>
    (Except.ok (), [StreamAct.lockAcquire, StreamAct.pipeSend op,
      StreamAct.logDebug, StreamAct.lockRelease])
  | SendResult.otherExn e =>
    (Except.error e, [StreamAct.lockAcquire, StreamAct.pipeSend op,
      StreamAct.lockRelease])

/-- The trace acquires and releases the stream lock in a balanced way:
tracked lock depth never goes negative and ends at zero. -/
def lockBalancedAux : Nat → List StreamAct → Bool
  | depth, [] => depth == 0
  | depth, StreamAct.lockAcquire :: rest => lockBalancedAux (depth + 1) rest
  | depth, StreamAct.lockRelease :: rest =>
    match depth with
    | 0 => false
    | d + 1 => lockBalancedAux d rest
  | depth, StreamAct.pipeSend _ :: rest => lockBalancedAux depth rest
  | depth, StreamAct.logDebug :: rest => lockBalancedAux depth rest

/-- Every lock acquisition in the trace is matched by a release. -/
def lockBalanced (t : List StreamAct) : Bool := lockBalancedAux 0 t

/-! ### The fd-forwarding loop -/

/-- One iteration's environment in `_forward_os_stream`: the state of the
exit flag when the loop condition is checked, and the bytes available on
the pipe's read end at the `os.read` call. -/
structure ReadStep where
  exitFlagSet : Bool
  pending : List Nat
deriving DecidableEq, Repr

/-- The chunk `os.read(fd, 1024)` returns for a step: at most 1024 of the
pending bytes. -/
def stepChunk (step : ReadStep) : List Nat := step.pending.take 1024

/-- The `while` loop inside `_forward_os_stream` (streams.py lines
155-159), before the enclosing `try/except`: while the exit flag is not
set, read up to 1024 bytes, break on an empty read, decode
(`data.decode()`, the `decode` parameter, which may raise) and forward to
the sink (`standard_stream.write`, the `write` parameter, which may
raise).  Returns the successfully forwarded strings in order, paired with
the exception that escaped the loop, if any. -/
def forwardLoop (decode : List Nat → Except PyExn Str)
    (write : Str → Except PyExn Nat) :
    List ReadStep → List Str × Option PyExn
  | [] => ([], none)
  | step :: rest =>
    if step.exitFlagSet then ([], none)
    else
      let data := stepChunk step
      if data.isEmpty then ([], none)
      else
        match decode data with
        | Except.error e => ([], some e)
        | Except.ok s =>
          match write s with
          | Except.error e => ([], some e)
          | Except.ok _ =>
            let (out, ex) := forwardLoop decode write rest
            (s :: out, ex)

/-- Embeds `_forward_os_stream` (streams.py lines 142-161): the loop is
wrapped in `try: ... except Exception: ...`, so any exception raised inside
the loop is caught and discarded and nothing propagates to the caller; the
caught-or-not exception is dropped and only the forwarded strings remain. -/
def _forward_os_stream (decode : List Nat → Except PyExn Str)
    (write : Str → Except PyExn Nat) (env : List ReadStep) :
    Except PyExn (List Str) :=
  match forwardLoop decode write env with
  | (out, some _) => Except.ok out
  | (out, none) => Except.ok out

/-- A step on which the loop continues: exit flag clear, non-empty read,
and both decode and forward succeed. -/
def stepOk (decode : List Nat → Except PyExn Str)
    (write : Str → Except PyExn Nat) (step : ReadStep) : Bool :=
  !step.exitFlagSet && !(stepChunk step).isEmpty &&
    (match decode (stepChunk step) with
     | Except.error _ => false
     | Except.ok s =>
       match write s with
       | Except.error _ => false
       | Except.ok _ => true)

/-- The string a continuing step forwards (junk on a non-continuing step). -/
def stepDecoded (decode : List Nat → Except PyExn Str) (step : ReadStep) : Str :=
  match decode (stepChunk step) with
  | Except.error _ => []
  | Except.ok s => s

/-! ### The watcher and the redirect scope -/

/-- What the real file descriptor of the watched standard stream currently
refers to. -/
inductive FdTarget where
  | originalFile
  | pipeWriteEnd
deriving DecidableEq, Repr

/-- The fd-level state a `Watcher` manipulates: what the stream's real fd
points at, the saved duplicate descriptor made by `start` (recording what
it refers to), and the `_fileno` override set on the stream object. -/
structure WatcherState where
  fdTarget : FdTarget
  backup : Option FdTarget
  filenoSet : Bool
deriving DecidableEq, Repr

/-- Embeds `Watcher.start` (streams.py lines 181-188): `os.dup(fd)` saves a
backing descriptor for whatever the fd currently refers to,
`_set_fileno(fd_dup)` records it on the stream, and `os.dup2(write_fd, fd)`
repoints the real fd at the pipe's write end. -/
def Watcher_start (s : WatcherState) : WatcherState :=
  { fdTarget := FdTarget.pipeWriteEnd, backup := some s.fdTarget,
    filenoSet := true }

/-- Embeds `Watcher.pause` (streams.py lines 190-195): `os.dup2(fd_dup,
fd)` restores the fd to the backing descriptor's target, the backing
descriptor is closed, and `_set_fileno(None)` clears the override.  (The
source assumes `start` ran before, so `fd_dup` exists; when no backup is
recorded the fd is left unchanged.) -/
def Watcher_pause (s : WatcherState) : WatcherState :=
  { fdTarget := s.backup.getD s.fdTarget, backup := none, filenoSet := false }

/-- The runtime kind of the stream object handed to `redirect`. -/
inductive StreamKind where
  | threadSafeStdout
  | threadSafeStderr
  | otherStream
deriving DecidableEq, Repr

/-- The `isinstance(standard_stream, ThreadSafeStdout) or
isinstance(standard_stream, ThreadSafeStderr)` test in `redirect`. -/
def isWatchedKind (k : StreamKind) : Bool :=
  match k with
  | StreamKind.threadSafeStdout => true
  | StreamKind.threadSafeStderr => true
  | StreamKind.otherStream => false

/-- Embeds the `redirect` context manager (streams.py lines 403-416):
`try:` on entry calls `watcher.start()` when the stream is a watched kind,
then the body runs (an opaque computation that may raise); `finally:` calls
`watcher.pause()` for a watched kind on every exit, exception or not, and
the body's outcome then propagates.  Returns the final watcher state and
the outcome the caller observes. -/
def redirect (kind : StreamKind) (body : Except PyExn Unit)
    (s : WatcherState) : WatcherState × Except PyExn Unit :=
  if isWatchedKind kind then
    let s1 := Watcher_start s
    let s2 := Watcher_pause s1
    (s2, body)
  else (s, body)

/-- A fixed configuration whose `std_stream_max_bytes` is 10, used to
exercise the truncation paths on short concrete payloads. -/
def ctx10 : Option RuntimeContext :=
  some { marimo_config := { runtime :=
    { output_max_bytes := 5000000, std_stream_max_bytes := 10 } } }

/-- The length of the data of the first console message a trace appends
(0 when none was appended). -/
def firstEmittedLen (t : List BufAction) : Nat :=
  ((emittedMsgs t).map fun m => m.data.length).headD 0

/-! ## Theorems settling the claims -/

/-- C6: `std_stream_max_bytes()` and `output_max_bytes()` never raise (they
are total functions of the context state): with the context uninitialized
they return the hard-coded defaults 1,000,000 and 5,000,000 respectively,
and with the context initialized they return the corresponding integer
setting from it. -/
theorem C6_config_lookup_total :
    std_stream_max_bytes none = 1000000 ∧
    output_max_bytes none = 5000000 ∧
    (∀ c : RuntimeContext,
      std_stream_max_bytes (some c) =
        c.marimo_config.runtime.std_stream_max_bytes ∧
      output_max_bytes (some c) =
        c.marimo_config.runtime.output_max_bytes) :=
  ⟨rfl, rfl, fun _ => ⟨rfl, rfl⟩⟩

/-- C3: for every message and every behavior of `pipe.send`,
`ThreadSafeStream.write` first acquires the stream lock and always releases
it (the trace is lock-balanced, so subsequent calls are not blocked or
poisoned); when `pipe.send` fails at transport level (`OSError`) the
failure is logged at debug level and swallowed — the call returns normally
to the producer. -/
theorem C3_write_swallows_transport_failure (op : Str) (r : SendResult) :
    (ThreadSafeStream_write r op).2.head? = some StreamAct.lockAcquire ∧
    lockBalanced (ThreadSafeStream_write r op).2 = true ∧
    (ThreadSafeStream_write SendResult.osError op).1 = Except.ok () ∧
    StreamAct.logDebug ∈ (ThreadSafeStream_write SendResult.osError op).2 ∧
    (ThreadSafeStream_write SendResult.ok op).1 = Except.ok () := by
  cases r <;>
    refine ⟨rfl, rfl, rfl, ?_, rfl⟩ <;>
    simp [ThreadSafeStream_write]

/-- C5: for every reply `R` at the head of the input queue, `readline`
enqueues exactly one stdin-prompt `ConsoleMsg` and returns exactly `R`
(consuming only `R` from the queue); `readlines` is `readline` with prompt
`""` followed by splitting the reply on newline boundaries, and on reply
`"a\nb"` it returns `["a", "b"]`. -/
theorem C5_readline_roundtrip (sizeof : Str → Nat)
    (ctx : Option RuntimeContext) (cid : Str) (R : Str) (rest : List Str) :
    (ThreadSafeStdin_readline sizeof ctx (some cid) (R :: rest)).1 =
      Except.ok (ReadOutcome.value R rest) ∧
    (emittedMsgs (ThreadSafeStdin_readline sizeof ctx (some cid)
        (R :: rest)).2).map ConsoleMsg.stream = [CellChannel.STDIN] ∧
    (ThreadSafeStdin_readlines sizeof ctx (some cid) (R :: rest)).1 =
      Except.ok (ReadLinesOutcome.value (R.splitOn '\n') rest) ∧
    (ThreadSafeStdin_readlines sizeof ctx (some cid)
        ("a\nb".toList :: rest)).1 =
      Except.ok (ReadLinesOutcome.value ["a".toList, "b".toList] rest) := by
  by_cases h : sizeof [] > std_stream_max_bytes ctx <;>
    simp [ThreadSafeStdin_readline, ThreadSafeStdin_readlines,
      ThreadSafeStdin_readline_with_prompt, emittedMsgs, h] <;>
    decide

/-- C7: a sink write or a `readline` issued while no cell id is bound on
the shared stream fails the `assert` immediately, whatever the payload;
with a cell id bound, a non-`str` payload (or prompt) raises a `TypeError`
naming the offending type, never silently coercing.  Either violation is
fatal to that call. -/
theorem C7_contract_violations (sizeof : Str → Nat)
    (ctx : Option RuntimeContext) (mt : Str) :
    (∀ d : PyVal,
      (ThreadSafeStdout_write_with_mimetype sizeof ctx none d mt).1 =
        Except.error PyExn.assertionError) ∧
    (∀ d : PyVal,
      (ThreadSafeStderr_write_with_mimetype sizeof ctx none d mt).1 =
        Except.error PyExn.assertionError) ∧
    (∀ (q : List Str) (p : PyVal),
      (ThreadSafeStdin_readline_with_prompt sizeof ctx none q p).1 =
        Except.error PyExn.assertionError) ∧
    (∀ (cid tn : Str),
      (ThreadSafeStdout_write_with_mimetype sizeof ctx (some cid)
          (PyVal.nonStr tn) mt).1 =
        Except.error (PyExn.typeError
          ("write() argument must be a str, not ".toList ++ tn))) ∧
    (∀ (cid tn : Str),
      (ThreadSafeStderr_write_with_mimetype sizeof ctx (some cid)
          (PyVal.nonStr tn) mt).1 =
        Except.error (PyExn.typeError
          ("write() argument must be a str, not ".toList ++ tn))) ∧
    (∀ (cid tn : Str) (q : List Str),
      (ThreadSafeStdin_readline_with_prompt sizeof ctx (some cid) q
          (PyVal.nonStr tn)).1 =
        Except.error (PyExn.typeError
          ("prompt must be a str, not ".toList ++ tn))) :=
  ⟨fun _ => rfl, fun _ => rfl, fun _ _ => rfl, fun _ _ => rfl, fun _ _ => rfl,
    fun _ _ q => by cases q <;> rfl⟩

/-- C1: the claim that every buffer mutation by the stdout sink's write,
the stderr sink's write, and the stream's `stop` happens under the
condition lock is false on the code: on a concrete in-limit write,
`ThreadSafeStdout._write_with_mimetype` appends its message to the buffer
before entering `with console_msg_cv`, and `ThreadSafeStream.stop` likewise
appends the `None` sentinel outside the lock. -/
theorem C1_counterexample :
    bufOpsUnderLock (ThreadSafeStdout_write_with_mimetype getsizeofASCII none
      (some "c1".toList) (PyVal.str "hi".toList) "text/plain".toList).2
      = false ∧
    bufOpsUnderLock (ThreadSafeStream_stop true) = false := by
  decide

/-- C1 (amended): the stderr sink's write performs both its buffer append
and its notification while holding the condition lock; the stdout sink's
write and the stream's `stop` perform only the notification under the lock,
their buffer appends happening outside it. -/
theorem C1_lock_discipline (sizeof : Str → Nat) (ctx : Option RuntimeContext)
    (cid : Option Str) (d : PyVal) (mt : Str) (cid0 s : Str) :
    bufOpsUnderLock
      (ThreadSafeStderr_write_with_mimetype sizeof ctx cid d mt).2 = true ∧
    notifiesUnderLock
      (ThreadSafeStdout_write_with_mimetype sizeof ctx cid d mt).2 = true ∧
    appendsUnderLock
      (ThreadSafeStdout_write_with_mimetype sizeof ctx (some cid0)
        (PyVal.str s) mt).2 = false ∧
    notifiesUnderLock (ThreadSafeStream_stop true) = true ∧
    appendsUnderLock (ThreadSafeStream_stop true) = false := by
  refine ⟨?_, ?_, ?_, by decide, by decide⟩
  · cases cid with
    | none => cases d <;> rfl
    | some c =>
      cases d with
      | nonStr tn => rfl
      | str s0 =>
        by_cases h : sizeof s0 > std_stream_max_bytes ctx <;>
          simp [ThreadSafeStderr_write_with_mimetype, bufOpsUnderLock,
            appendsUnderLock, appendsUnderLockAux,
            notifiesUnderLock, notifiesUnderLockAux, h]
  · cases cid with
    | none => cases d <;> rfl
    | some c =>
      cases d with
      | nonStr tn => rfl
      | str s0 =>
        by_cases h : sizeof s0 > std_stream_max_bytes ctx <;>
          simp [ThreadSafeStdout_write_with_mimetype,
            notifiesUnderLock, notifiesUnderLockAux, h]
  · by_cases h : sizeof s > std_stream_max_bytes ctx <;>
      simp [ThreadSafeStdout_write_with_mimetype,
        appendsUnderLock, appendsUnderLockAux, h]

/-- C2: the claimed bound — the emitted message's data has length at most
`M` plus the truncation-marker length — fails for the stderr sink: with the
limit configured to 10, writing the 11-character payload `"hello world"`
emits a single message whose data (warning + truncated payload + marker) is
70 characters long, exceeding 10 + 5. -/
theorem C2_counterexample :
    getsizeofASCII "hello world".toList > std_stream_max_bytes ctx10 ∧
    (emittedMsgs (ThreadSafeStderr_write_with_mimetype getsizeofASCII ctx10
        (some "c".toList) (PyVal.str "hello world".toList)
        "text/plain".toList).2).length = 1 ∧
    ((emittedMsgs (ThreadSafeStderr_write_with_mimetype getsizeofASCII ctx10
        (some "c".toList) (PyVal.str "hello world".toList)
        "text/plain".toList).2).all
      fun m => m.data.length ≤
        std_stream_max_bytes ctx10 + truncationMarker.length) = false := by
  refine ⟨by decide, by decide, by decide⟩

/-- C2 (amended): for every payload whose size estimate exceeds the limit
`M`, each sink emits exactly one message; the stdout sink's message data
has length at most `M` plus the truncation-marker length and exactly one
warning is written to the error stream; the stderr sink's message data has
length at most `M` plus the truncation-marker length plus the fixed
truncation-warning length, and that data is exactly the warning prepended
to the truncated payload plus marker — the warning is observable exactly
once, inside that single message rather than on the side channel. -/
theorem C2_size_bound (sizeof : Str → Nat) (ctx : Option RuntimeContext)
    (cid s mt : Str) (h : sizeof s > std_stream_max_bytes ctx) :
    sideChannelWrites (ThreadSafeStdout_write_with_mimetype sizeof ctx
      (some cid) (PyVal.str s) mt).2 = [truncationWarning] ∧
    (∀ m ∈ emittedMsgs (ThreadSafeStdout_write_with_mimetype sizeof ctx
        (some cid) (PyVal.str s) mt).2,
      m.data.length ≤
        std_stream_max_bytes ctx + truncationMarker.length) ∧
    (emittedMsgs (ThreadSafeStdout_write_with_mimetype sizeof ctx
      (some cid) (PyVal.str s) mt).2).length = 1 ∧
    sideChannelWrites (ThreadSafeStderr_write_with_mimetype sizeof ctx
      (some cid) (PyVal.str s) mt).2 = [] ∧
    (∀ m ∈ emittedMsgs (ThreadSafeStderr_write_with_mimetype sizeof ctx
        (some cid) (PyVal.str s) mt).2,
      m.data.length ≤ std_stream_max_bytes ctx +
        truncationWarning.length + truncationMarker.length) ∧
    (emittedMsgs (ThreadSafeStderr_write_with_mimetype sizeof ctx
      (some cid) (PyVal.str s) mt).2).length = 1 ∧
    (emittedMsgs (ThreadSafeStderr_write_with_mimetype sizeof ctx
        (some cid) (PyVal.str s) mt).2).map ConsoleMsg.data =
      [truncationWarning ++ s.take (std_stream_max_bytes ctx) ++
        truncationMarker] := by
  refine ⟨?_, ?_, ?_, ?_, ?_, ?_, ?_⟩ <;> (
    simp [ThreadSafeStdout_write_with_mimetype,
      ThreadSafeStderr_write_with_mimetype, emittedMsgs, sideChannelWrites,
      h]
    try omega)

/-- Witness for C2 (amended) at the limit 10 and payload `"hello world"`. -/
theorem C2_size_bound_witness :
    getsizeofASCII "hello world".toList > std_stream_max_bytes ctx10 ∧
    sideChannelWrites (ThreadSafeStdout_write_with_mimetype getsizeofASCII
      ctx10 (some "c".toList) (PyVal.str "hello world".toList)
      "text/plain".toList).2 = [truncationWarning] :=
  ⟨by decide,
    (C2_size_bound getsizeofASCII ctx10 "c".toList "hello world".toList
      "text/plain".toList (by decide)).1⟩

/-- C4: on an over-limit payload the stderr sink emits one combined message
whose data is the warning prepended to the truncated payload plus marker
(nothing on the side channel), while the stdout sink first writes the
warning separately to the error stream and then emits a message containing
only the truncated payload plus marker; the two full call traces are given
exactly. -/
theorem C4_truncation_policy (sizeof : Str → Nat) (ctx : Option RuntimeContext)
    (cid s mt : Str) (h : sizeof s > std_stream_max_bytes ctx) :
    ThreadSafeStderr_write_with_mimetype sizeof ctx (some cid)
        (PyVal.str s) mt =
      (Except.ok (truncationWarning ++ s.take (std_stream_max_bytes ctx) ++
          truncationMarker).length,
        [BufAction.acquireCv,
         BufAction.appendMsg (some
           { stream := CellChannel.STDERR, cell_id := cid,
             data := truncationWarning ++ s.take (std_stream_max_bytes ctx) ++
               truncationMarker,
             mimetype := mt }),
         BufAction.notifyCv, BufAction.releaseCv]) ∧
    ThreadSafeStdout_write_with_mimetype sizeof ctx (some cid)
        (PyVal.str s) mt =
      (Except.ok (s.take (std_stream_max_bytes ctx) ++
          truncationMarker).length,
        [BufAction.sysStderrWrite truncationWarning,
         BufAction.appendMsg (some
           { stream := CellChannel.STDOUT, cell_id := cid,
             data := s.take (std_stream_max_bytes ctx) ++ truncationMarker,
             mimetype := mt }),
         BufAction.acquireCv, BufAction.notifyCv, BufAction.releaseCv]) := by
  constructor <;>
    simp [ThreadSafeStderr_write_with_mimetype,
      ThreadSafeStdout_write_with_mimetype, h]

/-- Witness for C4 at the limit 10 and payload `"hello world"`. -/
theorem C4_truncation_policy_witness :
    getsizeofASCII "hello world".toList > std_stream_max_bytes ctx10 ∧
    ThreadSafeStdout_write_with_mimetype getsizeofASCII ctx10
        (some "c".toList) (PyVal.str "hello world".toList)
        "text/plain".toList =
      (Except.ok ("hello world".toList.take (std_stream_max_bytes ctx10) ++
          truncationMarker).length,
        [BufAction.sysStderrWrite truncationWarning,
         BufAction.appendMsg (some
           { stream := CellChannel.STDOUT, cell_id := "c".toList,
             data := "hello world".toList.take (std_stream_max_bytes ctx10) ++
               truncationMarker,
             mimetype := "text/plain".toList }),
         BufAction.acquireCv, BufAction.notifyCv, BufAction.releaseCv]) :=
  ⟨by decide,
    (C4_truncation_policy getsizeofASCII ctx10 "c".toList
      "hello world".toList "text/plain".toList (by decide)).2⟩

/-- The inner `while` loop forwards exactly the decoded chunks of the
maximal prefix of steps on which it continues (flag clear, non-empty read,
decode and forward both succeeding). -/
theorem forwardLoop_forwards (decode : List Nat → Except PyExn Str)
    (write : Str → Except PyExn Nat) (env : List ReadStep) :
    (forwardLoop decode write env).1 =
      (env.takeWhile (stepOk decode write)).map (stepDecoded decode) := by
  induction env with
  | nil => rfl
  | cons step rest ih =>
    simp only [forwardLoop]
    cases hf : step.exitFlagSet with
    | true => simp [List.takeWhile, stepOk, hf]
    | false =>
      cases he : (stepChunk step).isEmpty with
      | true => simp [List.takeWhile, stepOk, hf, he]
      | false =>
        cases hd : decode (stepChunk step) with
        | error e => simp [List.takeWhile, stepOk, hf, he, hd]
        | ok sdec =>
          cases hw : write sdec with
          | error e => simp [List.takeWhile, stepOk, hf, he, hd, hw]
          | ok n =>
            simp [List.takeWhile, stepOk, stepDecoded, hf, he, hd, hw, ih]

/-- C8: the fd-forwarding loop never propagates an exception to its caller,
whatever the read sequence and whatever the decode and sink behaviors: it
always returns normally with the decoded chunks of the steps it processed,
stopping at the first step where the exit flag is set, the read comes back
empty, or an exception occurs (the exception being caught and discarded);
each read returns at most 1024 bytes. -/
theorem C8_forward_loop_isolated (decode : List Nat → Except PyExn Str)
    (write : Str → Except PyExn Nat) (env : List ReadStep) :
    _forward_os_stream decode write env =
      Except.ok ((env.takeWhile (stepOk decode write)).map
        (stepDecoded decode)) ∧
    (∀ step : ReadStep, (stepChunk step).length ≤ 1024) := by
  constructor
  · have h := forwardLoop_forwards decode write env
    unfold _forward_os_stream
    cases hres : forwardLoop decode write env with
    | mk out ex =>
      rw [hres] at h
      cases ex <;> simpa using h
  · intro step
    simp only [stepChunk, List.length_take]
    omega

/-- C9: for every body (raising or not) run inside the `redirect` scope on
a watched stream kind, the watcher's `start` runs on entry and its `pause`
runs on exit, the body's outcome propagates unchanged, and the real fd ends
the scope pointing where it pointed before — never at the pipe's write
end when it started at the original file. -/
theorem C9_redirect_restores_fd (kind : StreamKind)
    (body : Except PyExn Unit) (s : WatcherState)
    (h : isWatchedKind kind = true) :
    redirect kind body s = (Watcher_pause (Watcher_start s), body) ∧
    (redirect kind body s).1.fdTarget = s.fdTarget ∧
    (s.fdTarget = FdTarget.originalFile →
      (redirect kind body s).1.fdTarget ≠ FdTarget.pipeWriteEnd) := by
  have hred : redirect kind body s = (Watcher_pause (Watcher_start s), body) := by
    simp [redirect, h]
  refine ⟨hred, ?_, ?_⟩
  · rw [hred]
    simp [Watcher_pause, Watcher_start]
  · intro h0
    rw [hred]
    simp [Watcher_pause, Watcher_start, h0]

/-- Witness for C9: a watched stdout stream whose body raises still leaves
the fd pointing at the original file. -/
theorem C9_redirect_restores_fd_witness :
    (redirect StreamKind.threadSafeStdout (Except.error PyExn.osError)
        { fdTarget := FdTarget.originalFile, backup := none,
          filenoSet := false }).1.fdTarget ≠ FdTarget.pipeWriteEnd :=
  (C9_redirect_restores_fd StreamKind.threadSafeStdout
    (Except.error PyExn.osError)
    { fdTarget := FdTarget.originalFile, backup := none, filenoSet := false }
    rfl).2.2 rfl

/-- C10: a sink write returns the length of the data of the message it
actually emitted, not the length of the caller's payload; concretely, with
the limit 10, a stderr write of the 11-character `"hello world"` returns
70 — the length of the warning-prefixed truncated string — which exceeds
the original input's length. -/
theorem C10_write_returns_emitted_length (sizeof : Str → Nat)
    (ctx : Option RuntimeContext) (cid s mt : Str) :
    (ThreadSafeStdout_write_with_mimetype sizeof ctx (some cid)
        (PyVal.str s) mt).1 =
      Except.ok (firstEmittedLen
        (ThreadSafeStdout_write_with_mimetype sizeof ctx (some cid)
          (PyVal.str s) mt).2) ∧
    (ThreadSafeStderr_write_with_mimetype sizeof ctx (some cid)
        (PyVal.str s) mt).1 =
      Except.ok (firstEmittedLen
        (ThreadSafeStderr_write_with_mimetype sizeof ctx (some cid)
          (PyVal.str s) mt).2) ∧
    (ThreadSafeStderr_write_with_mimetype getsizeofASCII ctx10
        (some "c".toList) (PyVal.str "hello world".toList)
        "text/plain".toList).1 = Except.ok 70 ∧
    70 > "hello world".toList.length := by
  refine ⟨?_, ?_, by rfl, by decide⟩ <;>
    by_cases h : sizeof s > std_stream_max_bytes ctx <;>
    simp [ThreadSafeStdout_write_with_mimetype,
      ThreadSafeStderr_write_with_mimetype, firstEmittedLen, emittedMsgs, h]

end Streams
